import Mathlib

/-!
Shallow embedding of the runtime parameter-validation engine of
`lake_graphics_framework` (`_variable_validation/_variable_validation.py`
together with the type aliases of `_src/_global_type_hinting/_type_hints.py`),
and proofs about it.

Modelling conventions:
* Python runtime values relevant to the validator are modelled by `Value`.
  Numbers are exact (`Int` for `int`, `Rat` for `float`); Python `bool` is a
  subclass of `int` (hence of `numbers.Real`), which the instance checks below
  reproduce.
* Exceptions raised by the validators (`TypeError` / `ValueError`, each
  carrying a message string) become an `Except VError Unit` result;
  `try/except` control flow in the union loop becomes a `match` on that result.
* Type descriptors are modelled by `TypeDesc`.  Python flattens nested
  `Union`s, so the alternatives of a union are the non-union descriptors
  (`Alt`).  The alias `PositiveInt = int` of `_type_hints.py` means the
  semantic marker for positive integers *is* the class `int`: both are the
  single constructor `Alt.intC`.  `Coordinate = tuple[int, int]` and
  `Size = tuple[int, int]` are distinct generic-alias objects compared by
  identity, hence distinct constructors.  `Alt.invalid` stands for any
  descriptor that is not a union, not one of the four markers and not a class
  usable with `isinstance` (for which CPython's `isinstance` itself raises a
  `TypeError`).
* Message strings mirror the source f-strings.  `repr`s of descriptor objects
  and of float values are approximated by fixed printable forms; no claim
  depends on their exact spelling.
-/

/-- A Python runtime value, as far as the validator can observe it. -/
inductive Value where
  | none
  | bool (b : Bool)
  | int (n : Int)
  | float (q : Rat)
  | str (s : String)
  | bytes (s : String)
  | list (xs : List Value)
  | tuple (xs : List Value)
  | other (tag : String)
deriving Repr

/-- `var is None`. -/
def Value.isNone : Value → Bool
  | Value.none => true
  | _ => false

/-- A plain Python class usable in a nominal `isinstance` check.  The class
`int` is absent on purpose: it is identical to the `PositiveInt` marker
(`PositiveInt = int` in `_type_hints.py`) and lives in `Alt.intC`. -/
inductive PyClass where
  | boolC
  | floatC
  | strC
  | bytesC
  | listC
  | tupleC
  | noneC
  | objC (tag : String)
deriving DecidableEq, Repr

/-- A non-union type descriptor: the class `int` (identical to the
`PositiveInt` marker), the three generic-alias markers, a plain class, or an
unrecognized descriptor object (not a class), on which `isinstance` raises
`TypeError`. -/
inductive Alt where
  | intC
  | coordinate
  | size
  | colorRGBA
  | cls (c : PyClass)
  | invalid
deriving DecidableEq, Repr

/-- A type descriptor as accepted by `validate_type`: either a single
non-union descriptor or a union of alternatives (CPython flattens nested
unions, so alternatives are non-union). -/
inductive TypeDesc where
  | simple (a : Alt)
  | union (alts : List Alt)
deriving DecidableEq, Repr

/-- Mirrors `PositiveInt = int` in `_type_hints.py`: the marker is the class
`int` itself. -/
def PositiveInt : Alt := Alt.intC

/-- The class `int` as a descriptor (the same runtime object as
`PositiveInt`). -/
def intClass : Alt := Alt.intC

/-- `TypeError` / `ValueError` raised by the validators, with the exception
message. -/
inductive VError where
  | typeError (msg : String)
  | valueError (msg : String)
deriving DecidableEq, Repr

/-- `isinstance(v, int)`: true for `int` and for `bool` (a subclass of
`int`). -/
def isInstInt : Value → Bool
  | Value.bool _ => true
  | Value.int _ => true
  | _ => false

/-- `isinstance(v, numbers.Real)`: true for `int`, `bool` and `float`. -/
def isInstReal : Value → Bool
  | Value.bool _ => true
  | Value.int _ => true
  | Value.float _ => true
  | _ => false

/-- `isinstance(v, collections.abc.Sequence)`: lists, tuples, strings and
byte strings are sequences. -/
def isInstSequence : Value → Bool
  | Value.str _ => true
  | Value.bytes _ => true
  | Value.list _ => true
  | Value.tuple _ => true
  | _ => false

/-- `isinstance(v, AnyString)` where `AnyString = str | bytes | bytearray`. -/
def isInstAnyString : Value → Bool
  | Value.str _ => true
  | Value.bytes _ => true
  | _ => false

/-- `isinstance(v, c)` for a plain class `c`. -/
def isinstancePy (v : Value) : PyClass → Bool
  | PyClass.boolC => match v with | Value.bool _ => true | _ => false
  | PyClass.floatC => match v with | Value.float _ => true | _ => false
  | PyClass.strC => match v with | Value.str _ => true | _ => false
  | PyClass.bytesC => match v with | Value.bytes _ => true | _ => false
  | PyClass.listC => match v with | Value.list _ => true | _ => false
  | PyClass.tupleC => match v with | Value.tuple _ => true | _ => false
  | PyClass.noneC => match v with | Value.none => true | _ => false
  | PyClass.objC tag => match v with | Value.other t => t == tag | _ => false

/-- The elements of a sequence value (the items `var[i]` iterates over).
Indexing a string yields its length-1 substrings; indexing a byte string
yields the byte values as `int`s. -/
def seqElems : Value → List Value
  | Value.str s => s.data.map (fun c => Value.str (String.mk [c]))
  | Value.bytes s => s.data.map (fun c => Value.int (Int.ofNat c.toNat))
  | Value.list xs => xs
  | Value.tuple xs => xs
  | _ => []

/-- The numeric value of a `Real` instance (`bool` counts as 0 / 1). -/
def numVal : Value → Rat
  | Value.bool b => if b then 1 else 0
  | Value.int n => (n : Rat)
  | Value.float q => q
  | _ => 0

/-- The integer value of an `int` instance (`bool` counts as 0 / 1). -/
def intVal : Value → Int
  | Value.bool b => if b then 1 else 0
  | Value.int n => n
  | _ => 0

/-- `str(type(v))`, as interpolated by the f-strings. -/
def typeName : Value → String
  | Value.none => "<class 'NoneType'>"
  | Value.bool _ => "<class 'bool'>"
  | Value.int _ => "<class 'int'>"
  | Value.float _ => "<class 'float'>"
  | Value.str _ => "<class 'str'>"
  | Value.bytes _ => "<class 'bytes'>"
  | Value.list _ => "<class 'list'>"
  | Value.tuple _ => "<class 'tuple'>"
  | Value.other tag => "<class '" ++ tag ++ "'>"

/-- `str(c)` for a plain class. -/
def classRepr : PyClass → String
  | PyClass.boolC => "<class 'bool'>"
  | PyClass.floatC => "<class 'float'>"
  | PyClass.strC => "<class 'str'>"
  | PyClass.bytesC => "<class 'bytes'>"
  | PyClass.listC => "<class 'list'>"
  | PyClass.tupleC => "<class 'tuple'>"
  | PyClass.noneC => "<class 'NoneType'>"
  | PyClass.objC tag => "<class '" ++ tag ++ "'>"

/-- `str(d)` for a non-union descriptor (generic aliases print their
subscripted form; the spelling of an unrecognized descriptor's repr is
arbitrary). -/
def altRepr : Alt → String
  | Alt.intC => "<class 'int'>"
  | Alt.coordinate => "tuple[int, int]"
  | Alt.size => "tuple[int, int]"
  | Alt.colorRGBA => "typing.Tuple[float, float, float, float]"
  | Alt.cls c => classRepr c
  | Alt.invalid => "<unrecognized descriptor>"

/-- `str(v)` as interpolated for "got {var}" / "was {var[i]}".  Exact float
formatting is approximated. -/
def pyRepr : Value → String
  | Value.none => "None"
  | Value.bool b => if b then "True" else "False"
  | Value.int n => toString n
  | Value.float q => toString q
  | Value.str s => "'" ++ s ++ "'"
  | Value.bytes s => "b'" ++ s ++ "'"
  | Value.list xs =>
      "[" ++ String.intercalate ", " (xs.attach.map (fun x => pyRepr x.1)) ++ "]"
  | Value.tuple xs =>
      "(" ++ String.intercalate ", " (xs.attach.map (fun x => pyRepr x.1)) ++
        (if xs.length == 1 then ",)" else ")")
  | Value.other tag => "<" ++ tag ++ " object>"
decreasing_by
  · simp only [Value.list.sizeOf_spec]
    have := List.sizeOf_lt_of_mem x.2
    omega
  · simp only [Value.tuple.sizeOf_spec]
    have := List.sizeOf_lt_of_mem x.2
    omega

/-- Python's `sep.join(l)`. -/
def joinSep (sep : String) : List String → String
  | [] => ""
  | [x] => x
  | x :: y :: xs => x ++ sep ++ joinSep sep (y :: xs)

/-- `str(possible_types)`: the tuple of a union's argument types. -/
def argsRepr (alts : List Alt) : String :=
  "(" ++ joinSep ", " (alts.map altRepr) ++ ")"

/-- `str(expected_type)` for a union descriptor. -/
def unionRepr (alts : List Alt) : String :=
  "typing.Union[" ++ joinSep ", " (alts.map altRepr) ++ "]"

/-- First element on which `p` holds, paired with its index: models a
`for i in range(len)` loop that raises at the first offending index. -/
def firstViol (p : Value → Bool) : List Value → Option (Nat × Value)
  | [] => Option.none
  | x :: xs =>
      if p x then some (0, x)
      else (firstViol p xs).map (fun iy => (iy.1 + 1, iy.2))

/-- Message of the `TypeError` in `_validate_positiveint`. -/
def posIntTypeMsg (name : String) (var : Value) : String :=
  "Invalid type for " ++ name ++ ". Expected <class 'int'>, got " ++
    typeName var ++ "."

/-- Message of the `ValueError` in `_validate_positiveint` (note: it does not
interpolate the value). -/
def posIntValueMsg (name : String) : String :=
  "Invalid value for " ++ name ++ ". PositiveInt numbers must be non-negative."

/-- `_validate_positiveint` from `_variable_validation.py`. -/
def _validate_positiveint (name : String) (var : Value) : Except VError Unit :=
  if ¬ isInstInt var then
    Except.error (VError.typeError (posIntTypeMsg name var))
  else if intVal var < 0 then
    Except.error (VError.valueError (posIntValueMsg name))
  else
    Except.ok ()

/-- Message of the non-sequence `TypeError` in `_validate_coordinate`. -/
def coordSeqMsg (name : String) (var : Value) : String :=
  "Invalid type for Coordinate '" ++ name ++
    "'. Expected <class 'collections.abc.Sequence'>, got " ++ typeName var ++ "."

/-- Message of the wrong-length `TypeError` in `_validate_coordinate`. -/
def coordLenMsg (name : String) : String :=
  "Invalid length for Coordinate '" ++ name ++
    "'. Coordinate must be two numbers."

/-- Message of the non-`Real`-element `TypeError` in `_validate_coordinate`. -/
def coordElemMsg (name : String) (i : Nat) (x : Value) : String :=
  "Invalid type for Coordinate[" ++ toString i ++ "] '" ++ name ++
    "'. Expected <class 'numbers.Real'>, got " ++ typeName x ++ "."

/-- `_validate_coordinate` from `_variable_validation.py`. -/
def _validate_coordinate (name : String) (var : Value) : Except VError Unit :=
  if ¬ isInstSequence var ∨ isInstAnyString var then
    Except.error (VError.typeError (coordSeqMsg name var))
  else if (seqElems var).length ≠ 2 then
    Except.error (VError.typeError (coordLenMsg name))
  else
    match firstViol (fun x => !isInstReal x) (seqElems var) with
    | some (i, x) => Except.error (VError.typeError (coordElemMsg name i x))
    | Option.none => Except.ok ()

/-- Message of the non-sequence `TypeError` in `_validate_size`. -/
def sizeSeqMsg (name : String) (var : Value) : String :=
  "Invalid type for Size '" ++ name ++
    "'. Expected <class 'collections.abc.Sequence'>, got " ++ typeName var ++ "."

/-- Message of the wrong-length `TypeError` in `_validate_size`. -/
def sizeLenMsg (name : String) : String :=
  "Invalid length for Size '" ++ name ++ "'. Size must be two numbers."

/-- Message of the non-`Real`-element `TypeError` in `_validate_size`. -/
def sizeElemMsg (name : String) (i : Nat) (x : Value) : String :=
  "Invalid type for Size[" ++ toString i ++ "] '" ++ name ++
    "'. Expected <class 'numbers.Real'>, got " ++ typeName x ++ "."

/-- Message of the `ValueError` in `_validate_size` (interpolates the whole
sequence, not the offending element). -/
def sizeValueMsg (name : String) (i : Nat) (var : Value) : String :=
  "Invalid value for Size[" ++ toString i ++ "] '" ++ name ++
    "'. All size numbers must be non-negative, got " ++ pyRepr var ++ "."

/-- `_validate_size` from `_variable_validation.py`: structural checks
(sequence, length 2, both elements `Real`), then the range loop. -/
def _validate_size (name : String) (var : Value) : Except VError Unit :=
  if ¬ isInstSequence var ∨ isInstAnyString var then
    Except.error (VError.typeError (sizeSeqMsg name var))
  else if (seqElems var).length ≠ 2 then
    Except.error (VError.typeError (sizeLenMsg name))
  else
    match firstViol (fun x => !isInstReal x) (seqElems var) with
    | some (i, x) => Except.error (VError.typeError (sizeElemMsg name i x))
    | Option.none =>
        match firstViol (fun x => decide (numVal x < 0)) (seqElems var) with
        | some (i, _) => Except.error (VError.valueError (sizeValueMsg name i var))
        | Option.none => Except.ok ()

/-- Message of the non-sequence `TypeError` in `_validate_color_rgba`. -/
def colorSeqMsg (name : String) (var : Value) : String :=
  "Invalid type for the Color '" ++ name ++
    "'. Expected <class 'collections.abc.Sequence'>, got " ++ typeName var ++ "."

/-- Message of the wrong-length `TypeError` in `_validate_color_rgba`. -/
def colorLenMsg (name : String) : String :=
  "Invalid length for the Color '" ++ name ++
    "'. Color must be contain four channels: Red, Green, Blue, Alpha."

/-- Message of the non-`Real`-element `TypeError` in `_validate_color_rgba`. -/
def colorElemMsg (name : String) (i : Nat) (x : Value) : String :=
  "Invalid type for the Color[" ++ toString i ++ "] '" ++ name ++
    "'. Expected <class 'numbers.Real'>, got " ++ typeName x ++ "."

/-- Message of the `ValueError` in `_validate_color_rgba` (interpolates the
offending element). -/
def colorValueMsg (name : String) (i : Nat) (x : Value) : String :=
  "Invalid value for the Color[" ++ toString i ++ "] '" ++ name ++
    "'. Color numbers must be between 0 and 1 inclusive, but the value was " ++
    pyRepr x ++ "."

/-- `_validate_color_rgba` from `_variable_validation.py`. -/
def _validate_color_rgba (name : String) (var : Value) : Except VError Unit :=
  if ¬ isInstSequence var ∨ isInstAnyString var then
    Except.error (VError.typeError (colorSeqMsg name var))
  else if (seqElems var).length ≠ 4 then
    Except.error (VError.typeError (colorLenMsg name))
  else
    match firstViol (fun x => !isInstReal x) (seqElems var) with
    | some (i, x) => Except.error (VError.typeError (colorElemMsg name i x))
    | Option.none =>
        match firstViol (fun x => decide (numVal x < 0) || decide (1 < numVal x)) (seqElems var) with
        | some (i, x) => Except.error (VError.valueError (colorValueMsg name i x))
        | Option.none => Except.ok ()

/-- Message of the nominal-check `TypeError` in `validate_type`. -/
def nominalMsg (name : String) (c : PyClass) (var : Value) : String :=
  "Invalid type for " ++ name ++ ". Expected " ++ classRepr c ++ ", got " ++
    typeName var ++ "."

/-- The `TypeError` CPython's `isinstance` raises when the second argument is
not a type (an unrecognized descriptor). -/
def isinstanceArgMsg : String :=
  "isinstance() arg 2 must be a type, a tuple of types, or a union"

/-- The non-union part of `validate_type` (lines 107-128): the four identity
checks against the semantic markers in source order, then the nominal
`isinstance` check; on a descriptor that is not a class, `isinstance` itself
raises `TypeError`. -/
def validateAlt (name : String) (var : Value) : Alt → Except VError Unit
  | Alt.intC => _validate_positiveint name var
  | Alt.coordinate => _validate_coordinate name var
  | Alt.size => _validate_size name var
  | Alt.colorRGBA => _validate_color_rgba name var
  | Alt.cls c =>
      if ¬ isinstancePy var c then
        Except.error (VError.typeError (nominalMsg name c var))
      else
        Except.ok ()
  | Alt.invalid => Except.error (VError.typeError isinstanceArgMsg)

/-- Message of the `TypeError` raised when a non-nullable union receives
`None`. -/
def unionNoneMsg (name : String) (alts : List Alt) : String :=
  "Invalid type for " ++ name ++ ", can't be None. Expected " ++
    unionRepr alts ++ ", got <class 'NoneType'>."

/-- Message of the `TypeError` raised when no union branch matched and no
branch recorded a `ValueError`. -/
def unionTypeMsg (name : String) (alts : List Alt) (var : Value) : String :=
  "Invalid type for " ++ name ++ ". Expected one of " ++ argsRepr alts ++
    ", got " ++ typeName var ++ "."

/-- Message of the aggregate `ValueError` raised when no union branch matched
but some branches recorded `ValueError`s. -/
def unionValueMsg (name : String) (alts : List Alt) (var : Value)
    (valueErrors : List String) : String :=
  name ++ " of type " ++ typeName var ++ " in " ++ argsRepr alts ++
    ", no type conformed to expected value. " ++
    "\nValidation value failures:\n  - " ++
    joinSep "\n  - " valueErrors

/-- The `for t in possible_types` loop of `validate_type` (lines 80-105):
skip `NoneType` branches, return on the first accepted branch, discard
`TypeError`s, record `ValueError` messages, and aggregate at the end.
`allAlts` is the full argument list used in the final messages. -/
def unionLoop (name : String) (var : Value) (allAlts : List Alt) :
    List Alt → List String → Except VError Unit
  | [], valueErrors =>
      if valueErrors.isEmpty then
        Except.error (VError.typeError (unionTypeMsg name allAlts var))
      else
        Except.error (VError.valueError (unionValueMsg name allAlts var valueErrors))
  | t :: rest, valueErrors =>
      if t = Alt.cls PyClass.noneC then
        unionLoop name var allAlts rest valueErrors
      else
        match validateAlt name var t with
        | Except.ok _ => Except.ok ()
        | Except.error (VError.typeError _) =>
            unionLoop name var allAlts rest valueErrors
        | Except.error (VError.valueError e) =>
            unionLoop name var allAlts rest (valueErrors ++ [e])

/-- `validate_type` from `_variable_validation.py`: union handling first
(including the `None` short-circuit on lines 70-76), then the marker and
nominal dispatch via `validateAlt`. -/
def validate_type (name : String) (var : Value) : TypeDesc → Except VError Unit
  | TypeDesc.simple a => validateAlt name var a
  | TypeDesc.union alts =>
      if var.isNone then
        if (Alt.cls PyClass.noneC) ∈ alts then
          Except.ok ()
        else
          Except.error (VError.typeError (unionNoneMsg name alts))
      else
        unionLoop name var alts alts []

/-- `validate_types` from `_variable_validation.py`: run each request in
order; a raised exception propagates, aborting the rest of the batch. -/
def validate_types : List (String × Value × TypeDesc) → Except VError Unit
  | [] => Except.ok ()
  | (name, var, t) :: rest =>
      match validate_type name var t with
      | Except.ok _ => validate_types rest
      | Except.error e => Except.error e

/-! ### Derived predicates used to state and prove the claims -/

/-- The structural ("shape") phase shared by the three sequence validators:
a non-textual ordered sequence of exactly `len` elements, all of them
`numbers.Real` instances. -/
def seqShapeOk (len : Nat) (v : Value) : Bool :=
  isInstSequence v && !isInstAnyString v &&
    decide ((seqElems v).length = len) && (seqElems v).all isInstReal

/-- Whether a union branch accepts the value. -/
def branchOk (name : String) (var : Value) (t : Alt) : Bool :=
  match validateAlt name var t with
  | Except.ok _ => true
  | Except.error _ => false

/-- Whether some non-`NoneType` branch accepts the value. -/
def acceptsSome (name : String) (var : Value) (ts : List Alt) : Bool :=
  ts.any (fun t => !decide (t = Alt.cls PyClass.noneC) && branchOk name var t)

/-- The `ValueError` messages the union loop records, in branch order. -/
def collectVE (name : String) (var : Value) (ts : List Alt) : List String :=
  ts.filterMap (fun t =>
    if t = Alt.cls PyClass.noneC then Option.none
    else
      match validateAlt name var t with
      | Except.error (VError.valueError e) => some e
      | _ => Option.none)

/-- Substring test on character lists. -/
def listHasSub (pat : List Char) : List Char → Bool
  | [] => decide (pat = [])
  | c :: t => pat.isPrefixOf (c :: t) || listHasSub pat t

/-- `pat in s` for strings. -/
def strHasSub (s pat : String) : Bool :=
  listHasSub pat.data s.data

theorem branchOk_iff (name : String) (var : Value) (t : Alt) :
    branchOk name var t = true ↔ validateAlt name var t = Except.ok () := by
  unfold branchOk
  cases h : validateAlt name var t with
  | ok u => cases u; simp
  | error e => simp

theorem acceptsSome_iff (name : String) (var : Value) (ts : List Alt) :
    acceptsSome name var ts = true ↔
      ∃ t ∈ ts, t ≠ Alt.cls PyClass.noneC ∧ validateAlt name var t = Except.ok () := by
  simp [acceptsSome, List.any_eq_true, branchOk_iff]

theorem joinSep_mem_decomp (sep m : String) (l : List String) (h : m ∈ l) :
    ∃ p s, joinSep sep l = p ++ (m ++ s) := by
  induction l with
  | nil => cases h
  | cons x xs ih =>
      rcases List.mem_cons.mp h with hx | hxs
      · subst hx
        cases xs with
        | nil =>
            exact ⟨"", "", by simp [joinSep, String.empty_append, String.append_empty]⟩
        | cons y ys =>
            refine ⟨"", sep ++ joinSep sep (y :: ys), ?_⟩
            simp [joinSep, String.empty_append, String.append_assoc]
      · obtain ⟨p, s, hps⟩ := ih hxs
        cases xs with
        | nil => cases hxs
        | cons y ys =>
            exact ⟨x ++ sep ++ p, s, by simp [joinSep, hps, String.append_assoc]⟩

theorem unionLoop_spec (name : String) (var : Value) (allAlts : List Alt)
    (ts : List Alt) : ∀ acc : List String,
    unionLoop name var allAlts ts acc =
      if acceptsSome name var ts then Except.ok ()
      else if (acc ++ collectVE name var ts).isEmpty then
        Except.error (VError.typeError (unionTypeMsg name allAlts var))
      else
        Except.error
          (VError.valueError
            (unionValueMsg name allAlts var (acc ++ collectVE name var ts))) := by
  induction ts with
  | nil => intro acc; simp [unionLoop, acceptsSome, collectVE]
  | cons t rest ih =>
      intro acc
      by_cases hn : t = Alt.cls PyClass.noneC
      · subst hn
        simp [unionLoop, acceptsSome, collectVE, ih acc, List.any_cons]
      · rcases hv : validateAlt name var t with e | u
        · cases e with
          | typeError m =>
              have hb : branchOk name var t = false := by simp [branchOk, hv]
              simp [unionLoop, hn, hv, acceptsSome, collectVE, List.any_cons, hb, ih acc]
          | valueError m =>
              have hb : branchOk name var t = false := by simp [branchOk, hv]
              simp only [unionLoop, if_neg hn, hv]
              rw [ih (acc ++ [m])]
              simp [acceptsSome, collectVE, List.any_cons, hb, hn, hv,
                List.append_assoc]
        · cases u
          have hb : branchOk name var t = true := by simp [branchOk, hv]
          simp [unionLoop, hn, hv, acceptsSome, collectVE, List.any_cons, hb]

theorem firstViol_eq_none (p : Value → Bool) (l : List Value) :
    firstViol p l = Option.none ↔ ∀ x ∈ l, p x = false := by
  induction l with
  | nil => simp [firstViol]
  | cons x xs ih =>
      by_cases h : p x = true
      · simp [firstViol, h]
      · simp only [Bool.not_eq_true] at h
        simp [firstViol, h, Option.map_eq_none', ih]

theorem firstViol_isSome_of_mem (p : Value → Bool) (l : List Value) (x : Value)
    (hx : x ∈ l) (hp : p x = true) :
    ∃ i y, firstViol p l = some (i, y) ∧ p y = true := by
  induction l with
  | nil => cases hx
  | cons z zs ih =>
      by_cases hz : p z = true
      · exact ⟨0, z, by simp [firstViol, hz], hz⟩
      · simp only [Bool.not_eq_true] at hz
        rcases List.mem_cons.mp hx with hxz | hxs
        · subst hxz; rw [hp] at hz; cases hz
        · obtain ⟨i, y, hy, hpy⟩ := ih hxs
          exact ⟨i + 1, y, by simp [firstViol, hz, hy], hpy⟩

theorem seqShapeOk_split (len : Nat) (v : Value) (h : seqShapeOk len v = true) :
    isInstSequence v = true ∧ isInstAnyString v = false ∧
      (seqElems v).length = len ∧ ∀ x ∈ seqElems v, isInstReal x = true := by
  simp only [seqShapeOk, Bool.and_eq_true, Bool.not_eq_true', decide_eq_true_eq,
    List.all_eq_true] at h
  exact ⟨h.1.1.1, h.1.1.2, h.1.2, h.2⟩

theorem firstViol_nonReal_none (v : Value)
    (hall : ∀ x ∈ seqElems v, isInstReal x = true) :
    firstViol (fun x => !isInstReal x) (seqElems v) = Option.none := by
  rw [firstViol_eq_none]
  intro x hx
  simp [hall x hx]

theorem coord_shape_accepts (name : String) (v : Value)
    (h : seqShapeOk 2 v = true) : _validate_coordinate name v = Except.ok () := by
  obtain ⟨hs, ha, hl, hall⟩ := seqShapeOk_split 2 v h
  simp [_validate_coordinate, hs, ha, hl, firstViol_nonReal_none v hall]

theorem coord_structFail (name : String) (v : Value)
    (h : seqShapeOk 2 v = false) :
    ∃ m, _validate_coordinate name v = Except.error (VError.typeError m) := by
  by_cases hs : isInstSequence v = true
  · by_cases ha : isInstAnyString v = true
    · exact ⟨coordSeqMsg name v, by simp [_validate_coordinate, hs, ha]⟩
    · simp only [Bool.not_eq_true] at ha
      by_cases hl : (seqElems v).length = 2
      · have hnall : ¬ ∀ x ∈ seqElems v, isInstReal x = true := by
          intro hall
          have htrue : seqShapeOk 2 v = true := by
            simp [seqShapeOk, hs, ha, hl, List.all_eq_true]
            exact hall
          simp [htrue] at h
        push_neg at hnall
        obtain ⟨x, hx, hxr⟩ := hnall
        simp only [Bool.not_eq_true] at hxr
        obtain ⟨i, y, hy, _⟩ :=
          firstViol_isSome_of_mem (fun x => !isInstReal x) (seqElems v) x hx
            (by simp [hxr])
        exact ⟨coordElemMsg name i y, by simp [_validate_coordinate, hs, ha, hl, hy]⟩
      · exact ⟨coordLenMsg name, by simp [_validate_coordinate, hs, ha, hl]⟩
  · simp only [Bool.not_eq_true] at hs
    exact ⟨coordSeqMsg name v, by simp [_validate_coordinate, hs]⟩

theorem size_structFail (name : String) (v : Value)
    (h : seqShapeOk 2 v = false) :
    ∃ m, _validate_size name v = Except.error (VError.typeError m) := by
  by_cases hs : isInstSequence v = true
  · by_cases ha : isInstAnyString v = true
    · exact ⟨sizeSeqMsg name v, by simp [_validate_size, hs, ha]⟩
    · simp only [Bool.not_eq_true] at ha
      by_cases hl : (seqElems v).length = 2
      · have hnall : ¬ ∀ x ∈ seqElems v, isInstReal x = true := by
          intro hall
          have htrue : seqShapeOk 2 v = true := by
            simp [seqShapeOk, hs, ha, hl, List.all_eq_true]
            exact hall
          simp [htrue] at h
        push_neg at hnall
        obtain ⟨x, hx, hxr⟩ := hnall
        simp only [Bool.not_eq_true] at hxr
        obtain ⟨i, y, hy, _⟩ :=
          firstViol_isSome_of_mem (fun x => !isInstReal x) (seqElems v) x hx
            (by simp [hxr])
        exact ⟨sizeElemMsg name i y, by simp [_validate_size, hs, ha, hl, hy]⟩
      · exact ⟨sizeLenMsg name, by simp [_validate_size, hs, ha, hl]⟩
  · simp only [Bool.not_eq_true] at hs
    exact ⟨sizeSeqMsg name v, by simp [_validate_size, hs]⟩

theorem color_structFail (name : String) (v : Value)
    (h : seqShapeOk 4 v = false) :
    ∃ m, _validate_color_rgba name v = Except.error (VError.typeError m) := by
  by_cases hs : isInstSequence v = true
  · by_cases ha : isInstAnyString v = true
    · exact ⟨colorSeqMsg name v, by simp [_validate_color_rgba, hs, ha]⟩
    · simp only [Bool.not_eq_true] at ha
      by_cases hl : (seqElems v).length = 4
      · have hnall : ¬ ∀ x ∈ seqElems v, isInstReal x = true := by
          intro hall
          have htrue : seqShapeOk 4 v = true := by
            simp [seqShapeOk, hs, ha, hl, List.all_eq_true]
            exact hall
          simp [htrue] at h
        push_neg at hnall
        obtain ⟨x, hx, hxr⟩ := hnall
        simp only [Bool.not_eq_true] at hxr
        obtain ⟨i, y, hy, _⟩ :=
          firstViol_isSome_of_mem (fun x => !isInstReal x) (seqElems v) x hx
            (by simp [hxr])
        exact ⟨colorElemMsg name i y, by simp [_validate_color_rgba, hs, ha, hl, hy]⟩
      · exact ⟨colorLenMsg name, by simp [_validate_color_rgba, hs, ha, hl]⟩
  · simp only [Bool.not_eq_true] at hs
    exact ⟨colorSeqMsg name v, by simp [_validate_color_rgba, hs]⟩

theorem size_rangeViol (name : String) (v : Value) (i : Nat) (x : Value)
    (h : seqShapeOk 2 v = true)
    (hfv : firstViol (fun x => decide (numVal x < 0)) (seqElems v) = some (i, x)) :
    _validate_size name v = Except.error (VError.valueError (sizeValueMsg name i v)) := by
  obtain ⟨hs, ha, hl, hall⟩ := seqShapeOk_split 2 v h
  simp [_validate_size, hs, ha, hl, firstViol_nonReal_none v hall, hfv]

theorem color_rangeViol (name : String) (v : Value) (i : Nat) (x : Value)
    (h : seqShapeOk 4 v = true)
    (hfv : firstViol (fun x => decide (numVal x < 0) || decide (1 < numVal x))
      (seqElems v) = some (i, x)) :
    _validate_color_rgba name v =
      Except.error (VError.valueError (colorValueMsg name i x)) := by
  obtain ⟨hs, ha, hl, hall⟩ := seqShapeOk_split 4 v h
  simp [_validate_color_rgba, hs, ha, hl, firstViol_nonReal_none v hall, hfv]

theorem validate_types_ok_iff (l : List (String × Value × TypeDesc)) :
    validate_types l = Except.ok () ↔
      ∀ q ∈ l, validate_type q.1 q.2.1 q.2.2 = Except.ok () := by
  induction l with
  | nil => simp [validate_types]
  | cons q rest ih =>
      obtain ⟨n, v, t⟩ := q
      rcases hv : validate_type n v t with e | u
      · simp [validate_types, hv]
      · cases u
        simp [validate_types, hv, ih]

theorem validate_types_first_error (pre : List (String × Value × TypeDesc))
    (r : String × Value × TypeDesc) (rest : List (String × Value × TypeDesc))
    (e : VError)
    (hpre : ∀ q ∈ pre, validate_type q.1 q.2.1 q.2.2 = Except.ok ())
    (hr : validate_type r.1 r.2.1 r.2.2 = Except.error e) :
    validate_types (pre ++ r :: rest) = Except.error e := by
  induction pre with
  | nil =>
      obtain ⟨n, v, t⟩ := r
      simp only [List.nil_append]
      simp [validate_types, hr]
  | cons q pre ih =>
      obtain ⟨n, v, t⟩ := q
      have hq : validate_type n v t = Except.ok () := hpre _ (List.mem_cons_self _ _)
      simp only [List.cons_append]
      simp [validate_types, hq]
      exact ih (fun q hq' => hpre q (List.mem_cons_of_mem _ hq'))

/-! ### The claims -/

/-- C2: for every integer `n ≥ 0`, `validate(name, n, PositiveInt)` accepts;
for every integer `n < 0` it rejects with a `ValueError` (value violation);
for every non-integral value it rejects with a `TypeError` (type mismatch). -/
theorem C2_positiveint_contract (name : String) :
    (∀ n : Int, 0 ≤ n →
      validate_type name (Value.int n) (TypeDesc.simple PositiveInt) = Except.ok ()) ∧
    (∀ n : Int, n < 0 →
      validate_type name (Value.int n) (TypeDesc.simple PositiveInt) =
        Except.error (VError.valueError (posIntValueMsg name))) ∧
    (∀ v : Value, isInstInt v = false →
      validate_type name v (TypeDesc.simple PositiveInt) =
        Except.error (VError.typeError (posIntTypeMsg name v))) := by
  refine ⟨fun n hn => ?_, fun n hn => ?_, fun v hv => ?_⟩
  · simp [validate_type, validateAlt, PositiveInt, _validate_positiveint, isInstInt,
      intVal, not_lt.mpr hn]
  · simp [validate_type, validateAlt, PositiveInt, _validate_positiveint, isInstInt,
      intVal, hn]
  · simp [validate_type, validateAlt, PositiveInt, _validate_positiveint, hv]

/-- C2 witness: the contract evaluated at `3`, `-1` and a string value. -/
theorem C2_positiveint_contract_witness :
    validate_type "x" (Value.int 3) (TypeDesc.simple PositiveInt) = Except.ok () ∧
    validate_type "x" (Value.int (-1)) (TypeDesc.simple PositiveInt) =
      Except.error (VError.valueError (posIntValueMsg "x")) ∧
    validate_type "x" (Value.str "a") (TypeDesc.simple PositiveInt) =
      Except.error (VError.typeError (posIntTypeMsg "x" (Value.str "a"))) :=
  ⟨(C2_positiveint_contract "x").1 3 (by decide),
   (C2_positiveint_contract "x").2.1 (-1) (by decide),
   (C2_positiveint_contract "x").2.2 (Value.str "a") (by decide)⟩

/-- C4: a union applied to an absent value (`None`) accepts immediately when
nullable (`NoneType` among the alternatives) and rejects immediately with a
`TypeError` otherwise, the result being this fixed outcome for every list of
alternatives (no branch is attempted). -/
theorem C4_union_none (name : String) (alts : List Alt) :
    (Alt.cls PyClass.noneC ∈ alts →
      validate_type name Value.none (TypeDesc.union alts) = Except.ok ()) ∧
    (Alt.cls PyClass.noneC ∉ alts →
      validate_type name Value.none (TypeDesc.union alts) =
        Except.error (VError.typeError (unionNoneMsg name alts))) := by
  constructor <;> intro h <;> simp [validate_type, Value.isNone, h]

/-- C4 witness: the nullable and non-nullable unions of the spec's example. -/
theorem C4_union_none_witness :
    validate_type "v" Value.none (TypeDesc.union [PositiveInt, Alt.cls PyClass.noneC]) =
      Except.ok () ∧
    validate_type "v" Value.none (TypeDesc.union [PositiveInt]) =
      Except.error (VError.typeError (unionNoneMsg "v" [PositiveInt])) :=
  ⟨(C4_union_none "v" [PositiveInt, Alt.cls PyClass.noneC]).1 (by decide),
   (C4_union_none "v" [PositiveInt]).2 (by decide)⟩

/-- C5: `validate_types` evaluates requests in order, propagates the first
rejection (independently of everything after it), and succeeds exactly when
every request is accepted. -/
theorem C5_batch_fail_fast :
    (∀ l : List (String × Value × TypeDesc),
      validate_types l = Except.ok () ↔
        ∀ q ∈ l, validate_type q.1 q.2.1 q.2.2 = Except.ok ()) ∧
    (∀ (pre : List (String × Value × TypeDesc)) (r : String × Value × TypeDesc)
        (rest : List (String × Value × TypeDesc)) (e : VError),
      (∀ q ∈ pre, validate_type q.1 q.2.1 q.2.2 = Except.ok ()) →
      validate_type r.1 r.2.1 r.2.2 = Except.error e →
      validate_types (pre ++ r :: rest) = Except.error e) :=
  ⟨validate_types_ok_iff, validate_types_first_error⟩

/-- C5 witness: the failing batch of `tests/test_variable_validation.py`
(request 1 fails with the Size value error, request 2 is behind it). -/
theorem C5_batch_fail_fast_witness :
    validate_types
      [("size", Value.tuple [Value.int 0, Value.int (-20)], TypeDesc.simple Alt.size),
       ("caption", Value.str "Title", TypeDesc.simple (Alt.cls PyClass.strC))] =
      Except.error
        (VError.valueError
          (sizeValueMsg "size" 1 (Value.tuple [Value.int 0, Value.int (-20)]))) := by
  have h := C5_batch_fail_fast.2 []
    ("size", Value.tuple [Value.int 0, Value.int (-20)], TypeDesc.simple Alt.size)
    [("caption", Value.str "Title", TypeDesc.simple (Alt.cls PyClass.strC))]
    (VError.valueError (sizeValueMsg "size" 1 (Value.tuple [Value.int 0, Value.int (-20)])))
    (by intro q hq; cases hq) (by rfl)
  simpa using h

/-- C9: `PositiveInt` is the class `int` itself, so validating against the
plain `int` descriptor is the same function as validating against
`PositiveInt`; in particular negative integers are rejected with a
`ValueError` rather than accepted as `int`s. -/
theorem C9_int_alias_positiveint :
    intClass = PositiveInt ∧
    (∀ (name : String) (v : Value),
      validate_type name v (TypeDesc.simple intClass) =
        validate_type name v (TypeDesc.simple PositiveInt)) ∧
    (∀ (name : String) (n : Int), n < 0 →
      validate_type name (Value.int n) (TypeDesc.simple intClass) =
        Except.error (VError.valueError (posIntValueMsg name))) := by
  refine ⟨rfl, fun name v => rfl, fun name n hn => ?_⟩
  simp [validate_type, validateAlt, intClass, _validate_positiveint, isInstInt,
    intVal, hn]

/-- C9 witness: `validate("x", -2, int)` rejects with the `PositiveInt`
value-violation message. -/
theorem C9_int_alias_positiveint_witness :
    validate_type "x" (Value.int (-2)) (TypeDesc.simple intClass) =
      Except.error (VError.valueError (posIntValueMsg "x")) :=
  C9_int_alias_positiveint.2.2 "x" (-2) (by decide)

/-- C10: booleans pass the integral and real structural checks: `True` is a
valid `PositiveInt`, and `(True, False)` is accepted by both the `Coordinate`
and the `Size` validator. -/
theorem C10_bool_integral :
    (∀ b : Bool, isInstInt (Value.bool b) = true) ∧
    (∀ b : Bool, isInstReal (Value.bool b) = true) ∧
    validate_type "b" (Value.bool true) (TypeDesc.simple PositiveInt) = Except.ok () ∧
    validate_type "c" (Value.tuple [Value.bool true, Value.bool false])
      (TypeDesc.simple Alt.coordinate) = Except.ok () ∧
    validate_type "s" (Value.tuple [Value.bool true, Value.bool false])
      (TypeDesc.simple Alt.size) = Except.ok () :=
  ⟨fun b => by cases b <;> rfl, fun b => by cases b <;> rfl, rfl, rfl, rfl⟩

/-- C1: for a union applied to a non-absent value, the outcome is acceptance
iff some non-null alternative accepts (short-circuit over the branch order);
otherwise, if any alternative was rejected with a `ValueError`, the union
rejects with the aggregate `ValueError` whose message contains every recorded
violation message in branch order, and if none was, it rejects with a single
`TypeError` naming the candidate list and the value's runtime type. -/
theorem C1_union_resolution (name : String) (var : Value) (alts : List Alt)
    (h : var.isNone = false) :
    (validate_type name var (TypeDesc.union alts) = Except.ok () ↔
      ∃ t ∈ alts, t ≠ Alt.cls PyClass.noneC ∧ validateAlt name var t = Except.ok ()) ∧
    (acceptsSome name var alts = false → collectVE name var alts ≠ [] →
      validate_type name var (TypeDesc.union alts) =
        Except.error
          (VError.valueError (unionValueMsg name alts var (collectVE name var alts))) ∧
      ∀ m ∈ collectVE name var alts,
        ∃ p s,
          unionValueMsg name alts var (collectVE name var alts) = p ++ (m ++ s)) ∧
    (acceptsSome name var alts = false → collectVE name var alts = [] →
      validate_type name var (TypeDesc.union alts) =
        Except.error (VError.typeError (unionTypeMsg name alts var))) := by
  have hu : validate_type name var (TypeDesc.union alts) =
      unionLoop name var alts alts [] := by
    simp [validate_type, h]
  rw [hu, unionLoop_spec name var alts alts []]
  refine ⟨?_, ?_, ?_⟩
  · by_cases hacc : acceptsSome name var alts = true
    · simp only [hacc, if_true]
      simp only [true_iff]
      exact (acceptsSome_iff name var alts).mp hacc
    · simp only [Bool.not_eq_true] at hacc
      simp only [hacc, Bool.false_eq_true, if_false, List.nil_append]
      constructor
      · intro hh
        split at hh <;> simp at hh
      · intro hex
        have := (acceptsSome_iff name var alts).mpr hex
        rw [this] at hacc
        cases hacc
  · intro hacc hne
    have hne' : (collectVE name var alts).isEmpty = false := by
      simpa [List.isEmpty_iff] using hne
    refine ⟨by simp [hacc, hne'], ?_⟩
    intro m hm
    obtain ⟨p, s, hps⟩ := joinSep_mem_decomp "\n  - " m (collectVE name var alts) hm
    refine ⟨name ++ " of type " ++ typeName var ++ " in " ++ argsRepr alts ++
      ", no type conformed to expected value. " ++
      "\nValidation value failures:\n  - " ++ p, s, ?_⟩
    simp [unionValueMsg, hps, String.append_assoc]
  · intro hacc hemp
    simp [hacc, hemp]

/-- C1 witness: the spec's union-order example
`validate("v", -5, Union[PositiveInt, NoneType])` rejects with the aggregate
value violation recording the `PositiveInt` branch message. -/
theorem C1_union_resolution_witness :
    validate_type "v" (Value.int (-5))
        (TypeDesc.union [PositiveInt, Alt.cls PyClass.noneC]) =
      Except.error
        (VError.valueError
          (unionValueMsg "v" [PositiveInt, Alt.cls PyClass.noneC] (Value.int (-5))
            [posIntValueMsg "v"])) := by
  have h := ((C1_union_resolution "v" (Value.int (-5))
    [PositiveInt, Alt.cls PyClass.noneC] (by rfl)).2.1 (by rfl) (by decide)).1
  simpa using h

/-- C3: for `Coordinate`, `Size` and `ColorRGBA`: any value failing the
structural phase (non-sequence, textual sequence, wrong length, or a
non-real element) is rejected with a `TypeError`; a correctly shaped value
breaking the range rule is rejected with a `ValueError` whose message names
the first offending index; `Coordinate` has no range rule and accepts every
correctly shaped value. -/
theorem C3_sequence_validators (name : String) (v : Value) :
    (seqShapeOk 2 v = false →
      (∃ m, validate_type name v (TypeDesc.simple Alt.coordinate) =
        Except.error (VError.typeError m)) ∧
      (∃ m, validate_type name v (TypeDesc.simple Alt.size) =
        Except.error (VError.typeError m))) ∧
    (seqShapeOk 4 v = false →
      ∃ m, validate_type name v (TypeDesc.simple Alt.colorRGBA) =
        Except.error (VError.typeError m)) ∧
    (seqShapeOk 2 v = true →
      validate_type name v (TypeDesc.simple Alt.coordinate) = Except.ok ()) ∧
    (seqShapeOk 2 v = true → (∃ x ∈ seqElems v, numVal x < 0) →
      ∃ i x, firstViol (fun x => decide (numVal x < 0)) (seqElems v) = some (i, x) ∧
        validate_type name v (TypeDesc.simple Alt.size) =
          Except.error (VError.valueError (sizeValueMsg name i v)) ∧
        ∃ p s, sizeValueMsg name i v = p ++ (toString i ++ s)) ∧
    (seqShapeOk 4 v = true → (∃ x ∈ seqElems v, numVal x < 0 ∨ 1 < numVal x) →
      ∃ i x,
        firstViol (fun x => decide (numVal x < 0) || decide (1 < numVal x))
          (seqElems v) = some (i, x) ∧
        validate_type name v (TypeDesc.simple Alt.colorRGBA) =
          Except.error (VError.valueError (colorValueMsg name i x)) ∧
        ∃ p s, colorValueMsg name i x = p ++ (toString i ++ s)) := by
  refine ⟨fun h => ⟨?_, ?_⟩, fun h => ?_, fun h => ?_, fun h hx => ?_, fun h hx => ?_⟩
  · simpa [validate_type, validateAlt] using coord_structFail name v h
  · simpa [validate_type, validateAlt] using size_structFail name v h
  · simpa [validate_type, validateAlt] using color_structFail name v h
  · simpa [validate_type, validateAlt] using coord_shape_accepts name v h
  · obtain ⟨x, hxm, hxn⟩ := hx
    obtain ⟨i, y, hy, _⟩ :=
      firstViol_isSome_of_mem (fun x => decide (numVal x < 0)) (seqElems v) x hxm
        (by simpa using hxn)
    refine ⟨i, y, hy, ?_, ?_⟩
    · simpa [validate_type, validateAlt] using size_rangeViol name v i y h hy
    · exact ⟨"Invalid value for Size[",
        "] '" ++ name ++ "'. All size numbers must be non-negative, got " ++
          pyRepr v ++ ".",
        by simp [sizeValueMsg, String.append_assoc]⟩
  · obtain ⟨x, hxm, hxn⟩ := hx
    obtain ⟨i, y, hy, _⟩ :=
      firstViol_isSome_of_mem
        (fun x => decide (numVal x < 0) || decide (1 < numVal x)) (seqElems v) x hxm
        (by rcases hxn with h1 | h1 <;> simp [h1])
    refine ⟨i, y, hy, ?_, ?_⟩
    · simpa [validate_type, validateAlt] using color_rangeViol name v i y h hy
    · exact ⟨"Invalid value for the Color[",
        "] '" ++ name ++
          "'. Color numbers must be between 0 and 1 inclusive, but the value was " ++
          pyRepr y ++ ".",
        by simp [colorValueMsg, String.append_assoc]⟩

/-- C3 witness: the spec's concrete cases `("x", "ab", Coordinate)`,
`("c", (1,2), Coordinate)` and `("s", (0,-1), Size)`. -/
theorem C3_sequence_validators_witness :
    (∃ m, validate_type "x" (Value.str "ab") (TypeDesc.simple Alt.coordinate) =
      Except.error (VError.typeError m)) ∧
    validate_type "c" (Value.tuple [Value.int 1, Value.int 2])
      (TypeDesc.simple Alt.coordinate) = Except.ok () ∧
    (∃ i x,
      firstViol (fun x => decide (numVal x < 0))
        (seqElems (Value.tuple [Value.int 0, Value.int (-1)])) = some (i, x) ∧
      validate_type "s" (Value.tuple [Value.int 0, Value.int (-1)])
        (TypeDesc.simple Alt.size) =
        Except.error
          (VError.valueError
            (sizeValueMsg "s" i (Value.tuple [Value.int 0, Value.int (-1)]))) ∧
      ∃ p s,
        sizeValueMsg "s" i (Value.tuple [Value.int 0, Value.int (-1)]) =
          p ++ (toString i ++ s)) :=
  ⟨((C3_sequence_validators "x" (Value.str "ab")).1 (by rfl)).1,
   (C3_sequence_validators "c" (Value.tuple [Value.int 1, Value.int 2])).2.2.1 (by rfl),
   (C3_sequence_validators "s" (Value.tuple [Value.int 0, Value.int (-1)])).2.2.2.1
     (by rfl) ⟨Value.int (-1), by simp [seqElems], by norm_num [numVal]⟩⟩

/-- C6: a value that fails the structural phase of any semantic validator is
rejected with a `TypeError` (a type mismatch), never a `ValueError`, even
when it is also out of range. -/
theorem C6_structural_short_circuit (name : String) (v : Value) :
    (isInstInt v = false →
      ∃ m, validate_type name v (TypeDesc.simple PositiveInt) =
        Except.error (VError.typeError m)) ∧
    (seqShapeOk 2 v = false →
      (∃ m, validate_type name v (TypeDesc.simple Alt.coordinate) =
        Except.error (VError.typeError m)) ∧
      (∃ m, validate_type name v (TypeDesc.simple Alt.size) =
        Except.error (VError.typeError m))) ∧
    (seqShapeOk 4 v = false →
      ∃ m, validate_type name v (TypeDesc.simple Alt.colorRGBA) =
        Except.error (VError.typeError m)) := by
  refine ⟨fun h => ?_, fun h => ⟨?_, ?_⟩, fun h => ?_⟩
  · exact ⟨posIntTypeMsg name v,
      by simp [validate_type, validateAlt, PositiveInt, _validate_positiveint, h]⟩
  · simpa [validate_type, validateAlt] using coord_structFail name v h
  · simpa [validate_type, validateAlt] using size_structFail name v h
  · simpa [validate_type, validateAlt] using color_structFail name v h

/-- C6 witness: `("s", ("a", -1), Size)` is malformed in shape *and* out of
range, and is rejected with a `TypeError`; a string is likewise rejected by
`PositiveInt` with a `TypeError`. -/
theorem C6_structural_short_circuit_witness :
    (∃ m, validate_type "s" (Value.tuple [Value.str "a", Value.int (-1)])
      (TypeDesc.simple Alt.size) = Except.error (VError.typeError m)) ∧
    (∃ m, validate_type "n" (Value.str "x") (TypeDesc.simple PositiveInt) =
      Except.error (VError.typeError m)) :=
  ⟨((C6_structural_short_circuit "s"
      (Value.tuple [Value.str "a", Value.int (-1)])).2.1 (by rfl)).2,
   (C6_structural_short_circuit "n" (Value.str "x")).1 (by rfl)⟩

/-- C7 counterexample: `validate("n", -1, PositiveInt)` rejects with a
`ValueError` whose message does not contain the observed value `-1` (nor its
type), refuting "the PositiveInt ValueViolation message includes the value
observed". -/
theorem C7_message_counterexample :
    validate_type "n" (Value.int (-1)) (TypeDesc.simple PositiveInt) =
      Except.error (VError.valueError (posIntValueMsg "n")) ∧
    posIntValueMsg "n" =
      "Invalid value for n. PositiveInt numbers must be non-negative." ∧
    strHasSub (posIntValueMsg "n") "-1" = false :=
  ⟨rfl, rfl, by decide⟩

/-- C7 amended: every structural or range failure message of the semantic
validators includes the field name; the sequence-type and element-type
`TypeError` messages also name the expected type and the actual runtime type
observed; the wrong-length messages state the expected length but interpolate
no observed value; the `Size` `ValueError` names the offending index and
interpolates the whole observed sequence (so the offending value appears, as
in the spec's `("s", (0,-1))` example); the `ColorRGBA` `ValueError` names the
offending index and value; but the `PositiveInt` `ValueError` states only the
field name and the non-negativity rule, omitting the observed value. -/
theorem C7_message_contract (name : String) (v : Value) :
    (isInstInt v = false →
      validate_type name v (TypeDesc.simple PositiveInt) =
        Except.error (VError.typeError (posIntTypeMsg name v))) ∧
    posIntTypeMsg name v =
      "Invalid type for " ++ name ++ ". Expected <class 'int'>, got " ++
        typeName v ++ "." ∧
    (∀ n : Int, n < 0 →
      validate_type name (Value.int n) (TypeDesc.simple PositiveInt) =
        Except.error (VError.valueError (posIntValueMsg name))) ∧
    posIntValueMsg name =
      "Invalid value for " ++ name ++
        ". PositiveInt numbers must be non-negative." ∧
    (isInstSequence v = false ∨ isInstAnyString v = true →
      validate_type name v (TypeDesc.simple Alt.coordinate) =
        Except.error (VError.typeError (coordSeqMsg name v)) ∧
      validate_type name v (TypeDesc.simple Alt.size) =
        Except.error (VError.typeError (sizeSeqMsg name v)) ∧
      validate_type name v (TypeDesc.simple Alt.colorRGBA) =
        Except.error (VError.typeError (colorSeqMsg name v))) ∧
    coordSeqMsg name v = "Invalid type for Coordinate '" ++ name ++
      "'. Expected <class 'collections.abc.Sequence'>, got " ++
      typeName v ++ "." ∧
    sizeSeqMsg name v = "Invalid type for Size '" ++ name ++
      "'. Expected <class 'collections.abc.Sequence'>, got " ++
      typeName v ++ "." ∧
    colorSeqMsg name v = "Invalid type for the Color '" ++ name ++
      "'. Expected <class 'collections.abc.Sequence'>, got " ++
      typeName v ++ "." ∧
    (isInstSequence v = true → isInstAnyString v = false →
      ((seqElems v).length ≠ 2 →
        validate_type name v (TypeDesc.simple Alt.coordinate) =
          Except.error (VError.typeError (coordLenMsg name)) ∧
        validate_type name v (TypeDesc.simple Alt.size) =
          Except.error (VError.typeError (sizeLenMsg name))) ∧
      ((seqElems v).length ≠ 4 →
        validate_type name v (TypeDesc.simple Alt.colorRGBA) =
          Except.error (VError.typeError (colorLenMsg name))) ∧
      (∀ i x, firstViol (fun x => !isInstReal x) (seqElems v) = some (i, x) →
        ((seqElems v).length = 2 →
          validate_type name v (TypeDesc.simple Alt.coordinate) =
            Except.error (VError.typeError (coordElemMsg name i x)) ∧
          validate_type name v (TypeDesc.simple Alt.size) =
            Except.error (VError.typeError (sizeElemMsg name i x))) ∧
        ((seqElems v).length = 4 →
          validate_type name v (TypeDesc.simple Alt.colorRGBA) =
            Except.error (VError.typeError (colorElemMsg name i x))))) ∧
    coordLenMsg name = "Invalid length for Coordinate '" ++ name ++
      "'. Coordinate must be two numbers." ∧
    sizeLenMsg name = "Invalid length for Size '" ++ name ++
      "'. Size must be two numbers." ∧
    colorLenMsg name = "Invalid length for the Color '" ++ name ++
      "'. Color must be contain four channels: Red, Green, Blue, Alpha." ∧
    (∀ (i : Nat) (x : Value), coordElemMsg name i x =
      "Invalid type for Coordinate[" ++ toString i ++ "] '" ++ name ++
        "'. Expected <class 'numbers.Real'>, got " ++ typeName x ++ ".") ∧
    (∀ (i : Nat) (x : Value), sizeElemMsg name i x =
      "Invalid type for Size[" ++ toString i ++ "] '" ++ name ++
        "'. Expected <class 'numbers.Real'>, got " ++ typeName x ++ ".") ∧
    (∀ (i : Nat) (x : Value), colorElemMsg name i x =
      "Invalid type for the Color[" ++ toString i ++ "] '" ++ name ++
        "'. Expected <class 'numbers.Real'>, got " ++ typeName x ++ ".") ∧
    (seqShapeOk 2 v = true →
      ∀ i x, firstViol (fun x => decide (numVal x < 0)) (seqElems v) = some (i, x) →
        validate_type name v (TypeDesc.simple Alt.size) =
          Except.error (VError.valueError (sizeValueMsg name i v)) ∧
        (∃ p s, sizeValueMsg name i v = p ++ (toString i ++ s)) ∧
        (∃ p s, sizeValueMsg name i v = p ++ (pyRepr v ++ s))) ∧
    (∀ (i : Nat), sizeValueMsg name i v =
      "Invalid value for Size[" ++ toString i ++ "] '" ++ name ++
        "'. All size numbers must be non-negative, got " ++ pyRepr v ++ ".") ∧
    (seqShapeOk 4 v = true →
      ∀ i x, firstViol (fun x => decide (numVal x < 0) || decide (1 < numVal x))
          (seqElems v) = some (i, x) →
        validate_type name v (TypeDesc.simple Alt.colorRGBA) =
          Except.error (VError.valueError (colorValueMsg name i x))) ∧
    (∀ (i : Nat) (x : Value), colorValueMsg name i x =
      "Invalid value for the Color[" ++ toString i ++ "] '" ++ name ++
        "'. Color numbers must be between 0 and 1 inclusive, but the value was " ++
        pyRepr x ++ ".") ∧
    (∀ (i : Nat) (x : Value),
      (∃ p s, posIntTypeMsg name v = p ++ (name ++ s)) ∧
      (∃ p s, posIntValueMsg name = p ++ (name ++ s)) ∧
      (∃ p s, coordSeqMsg name v = p ++ (name ++ s)) ∧
      (∃ p s, sizeSeqMsg name v = p ++ (name ++ s)) ∧
      (∃ p s, colorSeqMsg name v = p ++ (name ++ s)) ∧
      (∃ p s, coordLenMsg name = p ++ (name ++ s)) ∧
      (∃ p s, sizeLenMsg name = p ++ (name ++ s)) ∧
      (∃ p s, colorLenMsg name = p ++ (name ++ s)) ∧
      (∃ p s, coordElemMsg name i x = p ++ (name ++ s)) ∧
      (∃ p s, sizeElemMsg name i x = p ++ (name ++ s)) ∧
      (∃ p s, colorElemMsg name i x = p ++ (name ++ s)) ∧
      (∃ p s, sizeValueMsg name i v = p ++ (name ++ s)) ∧
      (∃ p s, colorValueMsg name i x = p ++ (name ++ s))) ∧
    strHasSub (sizeValueMsg "s" 1 (Value.tuple [Value.int 0, Value.int (-1)]))
      "-1" = true ∧
    strHasSub (sizeValueMsg "s" 1 (Value.tuple [Value.int 0, Value.int (-1)]))
      "Size[1]" = true := by
  have hrep : pyRepr (Value.tuple [Value.int 0, Value.int (-1)]) = "(0, -1)" := by
    simp [pyRepr]
    rfl
  refine ⟨fun h => ?_, rfl, fun n hn => ?_, rfl, fun h => ?_, rfl, rfl, rfl,
    fun hs ha => ?_, rfl, rfl, rfl, fun i x => rfl, fun i x => rfl, fun i x => rfl,
    fun h i x hfv => ?_, fun i => rfl, fun h i x hfv => ?_, fun i x => rfl,
    fun i x => ?_, ?_, ?_⟩
  · simp [validate_type, validateAlt, PositiveInt, _validate_positiveint, h]
  · simp [validate_type, validateAlt, PositiveInt, _validate_positiveint, isInstInt,
      intVal, hn]
  · rcases h with h | h <;>
      exact ⟨by simp [validate_type, validateAlt, _validate_coordinate, h],
        by simp [validate_type, validateAlt, _validate_size, h],
        by simp [validate_type, validateAlt, _validate_color_rgba, h]⟩
  · refine ⟨fun hl => ⟨?_, ?_⟩, fun hl => ?_, fun i x hfv => ⟨fun hl => ⟨?_, ?_⟩,
      fun hl => ?_⟩⟩
    · simp [validate_type, validateAlt, _validate_coordinate, hs, ha, hl]
    · simp [validate_type, validateAlt, _validate_size, hs, ha, hl]
    · simp [validate_type, validateAlt, _validate_color_rgba, hs, ha, hl]
    · simp [validate_type, validateAlt, _validate_coordinate, hs, ha, hl, hfv]
    · simp [validate_type, validateAlt, _validate_size, hs, ha, hl, hfv]
    · simp [validate_type, validateAlt, _validate_color_rgba, hs, ha, hl, hfv]
  · refine ⟨?_, ?_, ?_⟩
    · simpa [validate_type, validateAlt] using size_rangeViol name v i x h hfv
    · exact ⟨"Invalid value for Size[",
        "] '" ++ name ++ "'. All size numbers must be non-negative, got " ++
          pyRepr v ++ ".",
        by simp [sizeValueMsg, String.append_assoc]⟩
    · exact ⟨"Invalid value for Size[" ++ toString i ++ "] '" ++ name ++
        "'. All size numbers must be non-negative, got ", ".",
        by simp [sizeValueMsg, String.append_assoc]⟩
  · simpa [validate_type, validateAlt] using color_rangeViol name v i x h hfv
  · exact ⟨⟨"Invalid type for ",
        ". Expected <class 'int'>, got " ++ typeName v ++ ".",
        by simp [posIntTypeMsg, String.append_assoc]⟩,
      ⟨"Invalid value for ", ". PositiveInt numbers must be non-negative.",
        by simp [posIntValueMsg, String.append_assoc]⟩,
      ⟨"Invalid type for Coordinate '",
        "'. Expected <class 'collections.abc.Sequence'>, got " ++ typeName v ++ ".",
        by simp [coordSeqMsg, String.append_assoc]⟩,
      ⟨"Invalid type for Size '",
        "'. Expected <class 'collections.abc.Sequence'>, got " ++ typeName v ++ ".",
        by simp [sizeSeqMsg, String.append_assoc]⟩,
      ⟨"Invalid type for the Color '",
        "'. Expected <class 'collections.abc.Sequence'>, got " ++ typeName v ++ ".",
        by simp [colorSeqMsg, String.append_assoc]⟩,
      ⟨"Invalid length for Coordinate '", "'. Coordinate must be two numbers.",
        by simp [coordLenMsg, String.append_assoc]⟩,
      ⟨"Invalid length for Size '", "'. Size must be two numbers.",
        by simp [sizeLenMsg, String.append_assoc]⟩,
      ⟨"Invalid length for the Color '",
        "'. Color must be contain four channels: Red, Green, Blue, Alpha.",
        by simp [colorLenMsg, String.append_assoc]⟩,
      ⟨"Invalid type for Coordinate[" ++ toString i ++ "] '",
        "'. Expected <class 'numbers.Real'>, got " ++ typeName x ++ ".",
        by simp [coordElemMsg, String.append_assoc]⟩,
      ⟨"Invalid type for Size[" ++ toString i ++ "] '",
        "'. Expected <class 'numbers.Real'>, got " ++ typeName x ++ ".",
        by simp [sizeElemMsg, String.append_assoc]⟩,
      ⟨"Invalid type for the Color[" ++ toString i ++ "] '",
        "'. Expected <class 'numbers.Real'>, got " ++ typeName x ++ ".",
        by simp [colorElemMsg, String.append_assoc]⟩,
      ⟨"Invalid value for Size[" ++ toString i ++ "] '",
        "'. All size numbers must be non-negative, got " ++ pyRepr v ++ ".",
        by simp [sizeValueMsg, String.append_assoc]⟩,
      ⟨"Invalid value for the Color[" ++ toString i ++ "] '",
        "'. Color numbers must be between 0 and 1 inclusive, but the value was " ++
          pyRepr x ++ ".",
        by simp [colorValueMsg, String.append_assoc]⟩⟩
  · simp only [sizeValueMsg, hrep]
    decide
  · simp only [sizeValueMsg, hrep]
    decide

/-- C7 witness: the message contract evaluated at a non-integral
`PositiveInt` input, the spec's `("s", (0,-1), Size)` and
`("color", (0,0,0,2), ColorRGBA)` examples, a textual sequence against
`Coordinate`, and a non-real element against `Coordinate`. -/
theorem C7_message_contract_witness :
    validate_type "n" (Value.str "v") (TypeDesc.simple PositiveInt) =
      Except.error (VError.typeError (posIntTypeMsg "n" (Value.str "v"))) ∧
    validate_type "s" (Value.tuple [Value.int 0, Value.int (-1)])
        (TypeDesc.simple Alt.size) =
      Except.error
        (VError.valueError
          (sizeValueMsg "s" 1 (Value.tuple [Value.int 0, Value.int (-1)]))) ∧
    validate_type "x" (Value.str "ab") (TypeDesc.simple Alt.coordinate) =
      Except.error (VError.typeError (coordSeqMsg "x" (Value.str "ab"))) ∧
    validate_type "e" (Value.tuple [Value.str "a", Value.int 0])
        (TypeDesc.simple Alt.coordinate) =
      Except.error (VError.typeError (coordElemMsg "e" 0 (Value.str "a"))) ∧
    validate_type "color"
        (Value.tuple [Value.int 0, Value.int 0, Value.int 0, Value.int 2])
        (TypeDesc.simple Alt.colorRGBA) =
      Except.error (VError.valueError (colorValueMsg "color" 3 (Value.int 2))) := by
  refine ⟨?_, ?_, ?_, ?_, ?_⟩
  · exact (C7_message_contract "n" (Value.str "v")).1 (by rfl)
  · obtain ⟨_, _, _, _, _, _, _, _, _, _, _, _, _, _, _, h16, _⟩ :=
      C7_message_contract "s" (Value.tuple [Value.int 0, Value.int (-1)])
    exact (h16 (by rfl) 1 (Value.int (-1)) (by rfl)).1
  · obtain ⟨_, _, _, _, h5, _⟩ := C7_message_contract "x" (Value.str "ab")
    exact (h5 (Or.inr (by rfl))).1
  · obtain ⟨_, _, _, _, _, _, _, _, h9, _⟩ :=
      C7_message_contract "e" (Value.tuple [Value.str "a", Value.int 0])
    exact ((h9 (by rfl) (by rfl)).2.2 0 (Value.str "a") (by rfl)).1 (by rfl) |>.1
  · obtain ⟨_, _, _, _, _, _, _, _, _, _, _, _, _, _, _, _, _, h18, _⟩ :=
      C7_message_contract "color"
        (Value.tuple [Value.int 0, Value.int 0, Value.int 0, Value.int 2])
    exact h18 (by rfl) 3 (Value.int 2) (by rfl)

/-- C8 counterexample: a union containing an unrecognized descriptor branch
does not fail loudly: `validate("v", "hi", Union[<bad>, str])` accepts,
because the `TypeError` that `isinstance` raises on the bad branch is caught
and the branch silently discarded. -/
theorem C8_unrecognized_counterexample :
    validate_type "v" (Value.str "hi")
      (TypeDesc.union [Alt.invalid, Alt.cls PyClass.strC]) = Except.ok () := rfl

/-- C8 amended: an unrecognized descriptor used directly (outside a union)
makes validation fail immediately with the `TypeError` raised by `isinstance`
itself, for every value — it never accepts; but inside a union that
`TypeError` is caught like an ordinary type mismatch and the branch is
silently skipped, so the union can still accept the value through another
branch. -/
theorem C8_unrecognized_descriptor (name : String) (v : Value) (alts : List Alt) :
    validate_type name v (TypeDesc.simple Alt.invalid) =
      Except.error (VError.typeError isinstanceArgMsg) ∧
    (v.isNone = false →
      (∃ t ∈ alts, t ≠ Alt.cls PyClass.noneC ∧ validateAlt name v t = Except.ok ()) →
      validate_type name v (TypeDesc.union (Alt.invalid :: alts)) = Except.ok ()) := by
  refine ⟨rfl, fun h hex => ?_⟩
  have hu : validate_type name v (TypeDesc.union (Alt.invalid :: alts)) =
      unionLoop name v (Alt.invalid :: alts) (Alt.invalid :: alts) [] := by
    simp [validate_type, h]
  rw [hu, unionLoop_spec]
  have hacc : acceptsSome name v (Alt.invalid :: alts) = true := by
    rw [acceptsSome_iff]
    obtain ⟨t, ht, hne, hok⟩ := hex
    exact ⟨t, List.mem_cons_of_mem _ ht, hne, hok⟩
  simp [hacc]

/-- C8 witness: the amended behavior evaluated for the value `"hi"` with the
bad branch next to `str`. -/
theorem C8_unrecognized_descriptor_witness :
    validate_type "v" (Value.str "hi") (TypeDesc.simple Alt.invalid) =
      Except.error (VError.typeError isinstanceArgMsg) ∧
    validate_type "v" (Value.str "hi")
      (TypeDesc.union (Alt.invalid :: [Alt.cls PyClass.strC])) = Except.ok () :=
  ⟨(C8_unrecognized_descriptor "v" (Value.str "hi") [Alt.cls PyClass.strC]).1,
   (C8_unrecognized_descriptor "v" (Value.str "hi") [Alt.cls PyClass.strC]).2
     (by rfl) ⟨Alt.cls PyClass.strC, by simp, by decide, rfl⟩⟩
